import Mathlib

/-!
Verification of the PostgreSQL → SQL Server migration tool (src/migrator.py).

The pure core of the program is shallowly embedded here:

* `map_pg_type` — the type mapper (`migrator.py`, lines 75–109); Python's
  truthiness on optional integers (`not length`, `precision or 18`,
  `scale or 4`) is embedded by `pyOrNat` / explicit zero tests.
* `createTableStmt`, `createIndexStmt`, `fkStmt`, `schemaStmt` — the DDL
  string synthesis of `create_table`, `create_indexes` and
  `create_foreign_keys` (lines 200–269).  Python's `str.index` (which
  raises `ValueError` when the character is absent) is embedded as an
  `Option`-returning lookup `firstIdx`, and a failed parse propagates as
  `none`.
* `copyLoop` — the `fetchmany`/`executemany` loop of `copy_data`
  (lines 275–294), counting bulk-insert calls and accumulated rows.

String helpers (`lowerStr`, `splitComma`, `removeQuotes`, `trimStr`,
`joinSep`, `pySlice`) mirror the Python string methods `.lower()`,
`.split(",")`, `.replace('"', "")`, `.strip()`, `", ".join(...)` and
slicing, implemented structurally over `List Char` so that every
definition evaluates by `rfl`/`decide`.
-/

/-! ### String helpers mirroring Python string methods -/

/-- The double-quote character (written via its code point). -/
def dquote : Char := Char.ofNat 34

/-- Python `s.lower()` (ASCII case folding, as used by the migrator). -/
def lowerStr (s : String) : String := String.mk (s.data.map Char.toLower)

/-- Python `s.split(",")` on a character list: splits at every comma;
the empty string yields one empty field. -/
def splitComma : List Char → List (List Char)
  | [] => [[]]
  | c :: cs =>
    if c = ',' then [] :: splitComma cs
    else
      match splitComma cs with
      | [] => [[c]]
      | h :: t => (c :: h) :: t

/-- Python `s.split(",")` at the `String` level. -/
def splitCommaStr (s : String) : List String := (splitComma s.data).map String.mk

/-- Python `s.replace('"', "")`: removes every double quote. -/
def removeQuotes (s : String) : String := String.mk (s.data.filter (fun c => c ≠ dquote))

/-- Python `s.strip()`: drops leading and trailing whitespace. -/
def trimStr (s : String) : String :=
  String.mk (((s.data.dropWhile Char.isWhitespace).reverse.dropWhile Char.isWhitespace).reverse)

/-- Python `sep.join(l)`. -/
def joinSep (sep : String) : List String → String
  | [] => ""
  | [x] => x
  | x :: y :: xs => x ++ sep ++ joinSep sep (y :: xs)

/-- Python slicing `s[a:b]` for nonnegative bounds (empty when `b ≤ a`). -/
def pySlice (s : String) (a b : Nat) : String := String.mk ((s.data.drop a).take (b - a))

/-- Python `s.index(c)`: position of the first occurrence of `c`, or `none`
(where CPython raises `ValueError`). -/
def firstIdx (p : Char → Bool) : List Char → Option Nat
  | [] => none
  | c :: cs => if p c then some 0 else (firstIdx p cs).map (· + 1)

/-- Boolean "is a prefix of" on character lists. -/
def isPreB : List Char → List Char → Bool
  | [], _ => true
  | _ :: _, [] => false
  | a :: as, b :: bs => a == b && isPreB as bs

/-- Boolean substring test on character lists; `isSubB pat s` embeds
Python's `pat in s`. -/
def isSubB (pat : List Char) : List Char → Bool
  | [] => isPreB pat []
  | b :: bs => isPreB pat (b :: bs) || isSubB pat bs

/-! ### The type mapper (`map_pg_type`, migrator.py lines 75–109) -/

/-- Python `x or d` for an optional integer `x`: `None` and `0` are falsy. -/
def pyOrNat (o : Option Nat) (d : Nat) : Nat :=
  match o with
  | none => d
  | some n => if n = 0 then d else n

/-- The exact-match `mapping` dictionary of `map_pg_type`. -/
def pgTypeMap : List (String × String) :=
  [("integer", "INT"), ("int4", "INT"), ("bigint", "BIGINT"), ("int8", "BIGINT"),
   ("smallint", "SMALLINT"), ("boolean", "BIT"), ("date", "DATE"),
   ("timestamp without time zone", "DATETIME2"), ("timestamp with time zone", "DATETIME2"),
   ("double precision", "FLOAT"), ("real", "REAL")]

/-- `map_pg_type(pg_type, length, precision, scale, is_serial)`
(migrator.py lines 75–109).  The Python conditions
`if not length or length > 4000` and `{precision or 18},{scale or 4}`
are embedded with explicit zero tests (`0` is falsy in Python). -/
def map_pg_type (pg_type : String) (length precision scale : Option Nat) (is_serial : Bool) :
    String :=
  let t := lowerStr pg_type
  if is_serial then "INT IDENTITY(1,1)"
  else
    (pgTypeMap.lookup t).getD
      (if t = "character varying" then
        match length with
        | none => "NVARCHAR(MAX)"
        | some n => if n = 0 ∨ n > 4000 then "NVARCHAR(MAX)" else "NVARCHAR(" ++ toString n ++ ")"
      else if t = "text" then "NVARCHAR(MAX)"
      else if t = "numeric" ∨ t = "decimal" then
        "DECIMAL(" ++ toString (pyOrNat precision 18) ++ "," ++ toString (pyOrNat scale 4) ++ ")"
      else "NVARCHAR(MAX)")

/-! ### Column descriptors and table DDL (`create_table`, lines 200–224) -/

/-- One column descriptor, as built by `get_columns` (migrator.py lines 137–148). -/
structure Column where
  name : String
  data_type : String
  nullable : Bool
  length : Option Nat
  precision : Option Nat
  scale : Option Nat
  is_serial : Bool

/-- The `NULL` / `NOT NULL` marker of a column definition
(`"NULL" if c["nullable"] and not c["is_serial"] else "NOT NULL"`, line 206). -/
def nullMarker (c : Column) : String :=
  if c.nullable && !c.is_serial then "NULL" else "NOT NULL"

/-- One entry of `col_defs` (line 207). -/
def colDef (c : Column) : String :=
  "[" ++ c.name ++ "] "
    ++ map_pg_type c.data_type c.length c.precision c.scale c.is_serial
    ++ " " ++ nullMarker c

/-- The `pk_clause` string (lines 209–212); an empty key list is falsy in Python. -/
def pkClause (schema table : String) (pk : List String) : String :=
  if pk = [] then ""
  else
    ", CONSTRAINT [PK_" ++ schema ++ "_" ++ table ++ "] PRIMARY KEY ("
      ++ joinSep ", " (pk.map (fun c => "[" ++ c ++ "]")) ++ ")"

/-- The guarded schema-creation statement (line 201). -/
def schemaStmt (schema : String) : String :=
  "IF NOT EXISTS (SELECT 1 FROM sys.schemas WHERE name='" ++ schema
    ++ "') EXEC('CREATE SCHEMA [" ++ schema ++ "]');"

/-- The `create_sql` statement string (lines 214–220), with the exact
f-string literal text. -/
def createTableStmt (schema table : String) (columns : List Column) (pk : List String) :
    String :=
  "\n        IF OBJECT_ID('" ++ schema ++ "." ++ table
    ++ "', 'U') IS NULL\n        CREATE TABLE [" ++ schema ++ "].[" ++ table
    ++ "] (\n            " ++ joinSep ", " (columns.map colDef)
    ++ "\n            " ++ pkClause schema table pk ++ "\n        );\n    "

/-! ### Index DDL (`create_indexes`, lines 229–252) -/

/-- `index_name = f"IX_{schema}_{table}_{name}"` (line 242). -/
def indexName (schema table name : String) : String :=
  "IX_" ++ schema ++ "_" ++ table ++ "_" ++ name

/-- The `unique` keyword choice (lines 231–234):
`"UNIQUE" if "unique" in idxdef.lower() else ""`. -/
def uniqueFlag (idxdef : String) : String :=
  if isSubB "unique".data (lowerStr idxdef).data then "UNIQUE" else ""

/-- The column-list extraction of `create_indexes` (lines 236–239):
`cols = idxdef[idxdef.index("(")+1 : idxdef.index(")")].replace('"', "").split(",")`;
`none` models the `ValueError` raised by `str.index` when a parenthesis
is absent. -/
def indexCols (idxdef : String) : Option (List String) :=
  match firstIdx (fun c => c == '(') idxdef.data, firstIdx (fun c => c == ')') idxdef.data with
  | some i, some e => some (splitCommaStr (removeQuotes (pySlice idxdef (i + 1) e)))
  | _, _ => none

/-- `col_list = ", ".join(f"[{c.strip()}]" for c in cols)` (line 241). -/
def colListOf (cols : List String) : String :=
  joinSep ", " (cols.map (fun c => "[" ++ trimStr c ++ "]"))

/-- The guarded CREATE INDEX statement (lines 244–250) for one row of
`pg_indexes`; `none` when the column-list parse raises. -/
def createIndexStmt (schema table name idxdef : String) : Option String :=
  match indexCols idxdef with
  | none => none
  | some cols =>
    some ("\n            IF NOT EXISTS (\n                SELECT 1 FROM sys.indexes WHERE name='"
      ++ indexName schema table name ++ "'\n            )\n            CREATE "
      ++ uniqueFlag idxdef ++ " INDEX [" ++ indexName schema table name
      ++ "]\n            ON [" ++ schema ++ "].[" ++ table ++ "] ("
      ++ colListOf cols ++ ");\n        ")

/-! ### Foreign-key DDL (`create_foreign_keys`, lines 258–269) -/

/-- One foreign-key tuple, as returned by `get_foreign_keys` (lines 177–194). -/
structure FKey where
  constraint_name : String
  column : String
  ref_schema : String
  ref_table : String
  ref_col : String

/-- The `fk_sql` statement string (lines 261–266), with the exact
f-string literal text. -/
def fkStmt (schema table : String) (fk : FKey) : String :=
  "\n        ALTER TABLE [" ++ schema ++ "].[" ++ table
    ++ "]\n        ADD CONSTRAINT [FK_" ++ schema ++ "_" ++ table ++ "_" ++ fk.constraint_name
    ++ "]\n        FOREIGN KEY ([" ++ fk.column
    ++ "])\n        REFERENCES [" ++ fk.ref_schema ++ "].[" ++ fk.ref_table
    ++ "]([" ++ fk.ref_col ++ "]);\n        "

/-! ### The data-copy loop (`copy_data`, lines 275–294) -/

/-- The initial `SELECT COUNT(*)` of `copy_data` (lines 281–282). -/
def countQuery {α : Type} (rows : List α) : Nat := rows.length

/-- The `while True: batch = pg.fetchmany(BATCH_SIZE); ... executemany ...`
loop of `copy_data` (lines 287–294), over the stream of remaining rows.
Returns (number of `executemany` calls, final value of `copied`). -/
def copyLoop {α : Type} (B : Nat) (rows : List α) : Nat × Nat :=
  if _h : (rows.take B).length = 0 then (0, 0)
  else ((copyLoop B (rows.drop B)).1 + 1, (copyLoop B (rows.drop B)).2 + (rows.take B).length)
termination_by rows.length
decreasing_by
  all_goals
    simp only [List.length_take, List.length_drop] at _h ⊢
    omega

/-! ### Generic string lemmas -/

lemma str_ext {s t : String} (h : s.data = t.data) : s = t := by
  cases s; cases t; cases h; rfl

lemma ne_empty_left (a b : String) (h : a ≠ "") : a ++ b ≠ "" := by
  intro he
  apply h
  apply str_ext
  have hd : (a ++ b).data = [] := by rw [he]
  rw [String.data_append] at hd
  have := (List.append_eq_nil.mp hd).1
  simpa using this

/-! ### C1: totality of the type mapper -/

lemma pgTypeMap_lookup_ne_empty (k v : String) (h : pgTypeMap.lookup k = some v) : v ≠ "" := by
  simp only [pgTypeMap, List.lookup] at h
  repeat' split at h
  all_goals simp_all
  all_goals (intro he; subst he; revert h; decide)

/-- C1: the type mapper is total: for every input it returns a non-empty
target type string, and every source type name outside the recognized set
(the exact-match mapping table, `character varying`, `text`, `numeric`,
`decimal`) falls back to `NVARCHAR(MAX)`. -/
theorem map_pg_type_total :
    (∀ (t : String) (l p s : Option Nat) (b : Bool), map_pg_type t l p s b ≠ "")
    ∧ (∀ (t : String) (l p s : Option Nat),
        pgTypeMap.lookup (lowerStr t) = none →
        lowerStr t ≠ "character varying" →
        lowerStr t ≠ "text" →
        lowerStr t ≠ "numeric" →
        lowerStr t ≠ "decimal" →
        map_pg_type t l p s false = "NVARCHAR(MAX)") := by
  constructor
  · intro t l p s b
    cases b with
    | true =>
      show ("INT IDENTITY(1,1)" : String) ≠ ""
      decide
    | false =>
      show (pgTypeMap.lookup (lowerStr t)).getD _ ≠ ""
      rcases hm : pgTypeMap.lookup (lowerStr t) with _ | v
      · rw [Option.getD_none]
        repeat' split
        all_goals first
          | decide
          | (apply ne_empty_left; apply ne_empty_left; decide)
          | (apply ne_empty_left; apply ne_empty_left; apply ne_empty_left;
             apply ne_empty_left; decide)
      · rw [Option.getD_some]
        exact pgTypeMap_lookup_ne_empty _ _ hm
  · intro t l p s h0 h1 h2 h3 h4
    show (pgTypeMap.lookup (lowerStr t)).getD _ = _
    rw [h0, Option.getD_none, if_neg h1, if_neg h2, if_neg (by rw [not_or]; exact ⟨h3, h4⟩)]

/-- Witness for C1 at concrete inputs: the unrecognized type name
`geometry` falls back to `NVARCHAR(MAX)`, and a recognized input maps to
a non-empty string. -/
theorem map_pg_type_total_witness :
    map_pg_type "geometry" none none none false = "NVARCHAR(MAX)"
    ∧ map_pg_type "integer" none none none false ≠ "" :=
  ⟨map_pg_type_total.2 "geometry" none none none (by decide) (by decide) (by decide)
      (by decide) (by decide),
   map_pg_type_total.1 "integer" none none none false⟩

/-! ### C2: autoincrement precedence -/

/-- C2: a column flagged autoincrement maps to `INT IDENTITY(1,1)`
regardless of its declared source type, length, precision and scale. -/
theorem map_pg_type_autoincrement (t : String) (l p s : Option Nat) :
    map_pg_type t l p s true = "INT IDENTITY(1,1)" := rfl

/-! ### C3: the varchar boundary (corrected: Python treats length 0 as absent) -/

/-- C3 counterexample: at the concrete input `length = 0` (a given length,
`≤ 4000`), the code returns `NVARCHAR(MAX)`, not `NVARCHAR(0)` as the
claim states: `not length` is true for `0` in Python. -/
theorem varchar_boundary_counterexample :
    map_pg_type "character varying" (some 0) none none false = "NVARCHAR(MAX)"
    ∧ map_pg_type "character varying" (some 0) none none false ≠ "NVARCHAR(0)" := by
  constructor <;> decide

/-- C3 (amended): for a non-autoincrement `character varying` column, a
positive given length `≤ 4000` yields `NVARCHAR(length)`; an absent,
zero, or `> 4000` length yields `NVARCHAR(MAX)`. -/
theorem varchar_boundary_amended :
    (∀ (p s : Option Nat) (n : Nat), 0 < n → n ≤ 4000 →
        map_pg_type "character varying" (some n) p s false = "NVARCHAR(" ++ toString n ++ ")")
    ∧ (∀ p s : Option Nat, map_pg_type "character varying" none p s false = "NVARCHAR(MAX)")
    ∧ (∀ (p s : Option Nat) (n : Nat), n = 0 ∨ n > 4000 →
        map_pg_type "character varying" (some n) p s false = "NVARCHAR(MAX)") := by
  refine ⟨fun p s n h1 h2 => ?_, fun p s => rfl, fun p s n h => ?_⟩
  · show (if n = 0 ∨ n > 4000 then "NVARCHAR(MAX)" else "NVARCHAR(" ++ toString n ++ ")") = _
    rw [if_neg (by omega)]
  · show (if n = 0 ∨ n > 4000 then "NVARCHAR(MAX)" else "NVARCHAR(" ++ toString n ++ ")") = _
    rw [if_pos h]

/-- Witness for C3 (amended) at the spec's own examples: length 255 gives
`NVARCHAR(255)`, length 5000 gives `NVARCHAR(MAX)`. -/
theorem varchar_boundary_amended_witness :
    map_pg_type "character varying" (some 255) none none false = "NVARCHAR(255)"
    ∧ map_pg_type "character varying" (some 5000) none none false = "NVARCHAR(MAX)" :=
  ⟨varchar_boundary_amended.1 none none 255 (by decide) (by decide),
   varchar_boundary_amended.2.2 none none 5000 (Or.inr (by decide))⟩

/-! ### C4: decimal defaulting (corrected: Python treats 0 as absent) -/

/-- C4 counterexample: at the concrete input `precision = 10, scale = 0`
(a given scale), the code returns `DECIMAL(10,4)`, not `DECIMAL(10,0)` as
the claim states: `scale or 4` replaces a zero scale by 4 in Python. -/
theorem decimal_default_counterexample :
    map_pg_type "numeric" none (some 10) (some 0) false = "DECIMAL(10,4)"
    ∧ map_pg_type "numeric" none (some 10) (some 0) false ≠ "DECIMAL(10,0)" := by
  constructor <;> decide

/-- C4 (amended): for a non-autoincrement `numeric` or `decimal` column the
mapper returns `DECIMAL(p,s)` where `p` is the given precision when
nonzero and 18 when absent or zero, and `s` is the given scale when
nonzero and 4 when absent or zero. -/
theorem decimal_default_amended :
    (∀ (t : String) (l p s : Option Nat), t = "numeric" ∨ t = "decimal" →
        map_pg_type t l p s false
          = "DECIMAL(" ++ toString (pyOrNat p 18) ++ "," ++ toString (pyOrNat s 4) ++ ")")
    ∧ (∀ d : Nat, pyOrNat none d = d)
    ∧ (∀ d : Nat, pyOrNat (some 0) d = d)
    ∧ (∀ (d n : Nat), n ≠ 0 → pyOrNat (some n) d = n) := by
  refine ⟨fun t l p s h => ?_, fun d => rfl, fun d => rfl, fun d n h => ?_⟩
  · rcases h with h | h <;> subst h <;> rfl
  · show (if n = 0 then d else n) = n
    rw [if_neg h]

/-- Witness for C4 (amended) at the spec's own examples:
`precision=10, scale=2` gives `DECIMAL(10,2)` and absent precision and
scale give `DECIMAL(18,4)`. -/
theorem decimal_default_amended_witness :
    map_pg_type "numeric" none (some 10) (some 2) false = "DECIMAL(10,2)"
    ∧ map_pg_type "decimal" none none none false = "DECIMAL(18,4)" :=
  ⟨decimal_default_amended.1 "numeric" none (some 10) (some 2) (Or.inl rfl),
   decimal_default_amended.1 "decimal" none none none (Or.inr rfl)⟩

/-! ### C5: batch accounting in the copy loop -/

lemma copyLoop_fuel {α : Type} (B : Nat) (hB : 0 < B) :
    ∀ (n : Nat) (rows : List α), rows.length ≤ n →
      (copyLoop B rows).1 = (rows.length + B - 1) / B ∧ (copyLoop B rows).2 = rows.length := by
  intro n
  induction n with
  | zero =>
    intro rows hle
    have hz : rows.length = 0 := Nat.le_zero.mp hle
    rw [copyLoop, dif_pos (by simp only [List.length_take]; omega)]
    refine ⟨?_, hz.symm⟩
    rw [hz, Nat.div_eq_of_lt (by omega)]
  | succ n ih =>
    intro rows hle
    by_cases hz : rows.length = 0
    · rw [copyLoop, dif_pos (by simp only [List.length_take]; omega)]
      refine ⟨?_, hz.symm⟩
      rw [hz, Nat.div_eq_of_lt (by omega)]
    · rw [copyLoop, dif_neg (by simp only [List.length_take]; omega)]
      have hdrop : (rows.drop B).length ≤ n := by
        simp only [List.length_drop]; omega
      obtain ⟨ih1, ih2⟩ := ih (rows.drop B) hdrop
      simp only [List.length_drop] at ih1 ih2
      constructor
      · rw [ih1]
        rcases Nat.lt_or_ge rows.length B with hLB | hBL
        · have e1 : rows.length - B = 0 := by omega
          have e2 : rows.length + B - 1 = rows.length - 1 + B := by omega
          rw [e1, e2, Nat.add_div_right _ hB,
            Nat.div_eq_of_lt (by omega), Nat.div_eq_of_lt (by omega)]
        · have e1 : rows.length - B + B - 1 = rows.length - 1 := by omega
          have e2 : rows.length + B - 1 = rows.length - 1 + B := by omega
          rw [e1, e2, Nat.add_div_right _ hB]
      · rw [ih2]
        simp only [List.length_take]
        omega

/-- C5: for a source table of `N` rows and batch size `B > 0`, the copy
loop issues exactly `⌈N/B⌉ = (N + B - 1) / B` `executemany` calls, and the
cumulative `copied` counter after the last call equals the result of the
initial `SELECT COUNT(*)` query. -/
theorem copy_data_batch_accounting {α : Type} (B : Nat) (rows : List α) (hB : 0 < B) :
    (copyLoop B rows).1 = (countQuery rows + B - 1) / B
    ∧ (copyLoop B rows).2 = countQuery rows :=
  copyLoop_fuel B hB rows.length rows (Nat.le_refl _)

/-- Witness for C5 at the spec's own example: 250,000 rows with batch size
10,000 give exactly 25 bulk-insert calls and 250,000 copied rows. -/
theorem copy_data_batch_accounting_witness :
    (copyLoop 10000 (List.replicate 250000 ())).1 = 25
    ∧ (copyLoop 10000 (List.replicate 250000 ())).2 = 250000 := by
  have h := copy_data_batch_accounting 10000 (List.replicate 250000 ()) (by decide)
  rw [countQuery, List.length_replicate] at h
  obtain ⟨h1, h2⟩ := h
  exact ⟨by rw [h1], h2⟩

/-! ### C6: idempotency asymmetry of the synthesized DDL -/

/-- C6: the synthesized table-creation statement is guarded by
`IF OBJECT_ID('schema.table', 'U') IS NULL`, every successfully
synthesized index-creation statement is guarded by
`IF NOT EXISTS (SELECT 1 FROM sys.indexes ...)`, and every synthesized
foreign-key statement is an unconditional `ALTER TABLE` whose first
non-whitespace text is not an `IF` guard. -/
theorem ddl_guard_asymmetry :
    (∀ (schema table : String) (columns : List Column) (pk : List String),
      ∃ r, createTableStmt schema table columns pk
        = "\n        IF OBJECT_ID('"
          ++ (schema ++ ("." ++ (table ++ ("', 'U') IS NULL\n        CREATE TABLE [" ++ r)))))
    ∧ (∀ schema table name idxdef s, createIndexStmt schema table name idxdef = some s →
      ∃ r, s = "\n            IF NOT EXISTS (\n                SELECT 1 FROM sys.indexes WHERE name='"
        ++ r)
    ∧ (∀ (schema table : String) (fk : FKey),
      ∃ r, fkStmt schema table fk = "\n        " ++ ("ALTER TABLE [" ++ r)
        ∧ ¬ ("IF".data <+: ("ALTER TABLE [" ++ r).data)) := by
  refine ⟨fun schema table columns pk => ?_, fun schema table name idxdef s hs => ?_,
    fun schema table fk => ?_⟩
  · refine ⟨schema ++ "].[" ++ table ++ "] (\n            " ++ joinSep ", " (columns.map colDef)
      ++ "\n            " ++ pkClause schema table pk ++ "\n        );\n    ", ?_⟩
    rw [createTableStmt]
    simp only [String.append_assoc]
  · rcases hc : indexCols idxdef with _ | cols
    · rw [createIndexStmt, hc] at hs
      exact absurd hs (by simp)
    · rw [createIndexStmt, hc, Option.some.injEq] at hs
      refine ⟨indexName schema table name ++ "'\n            )\n            CREATE "
        ++ uniqueFlag idxdef ++ " INDEX [" ++ indexName schema table name
        ++ "]\n            ON [" ++ schema ++ "].[" ++ table ++ "] ("
        ++ colListOf cols ++ ");\n        ", ?_⟩
      rw [← hs]
      simp only [String.append_assoc]
  · refine ⟨schema ++ "].[" ++ table
      ++ "]\n        ADD CONSTRAINT [FK_" ++ schema ++ "_" ++ table ++ "_" ++ fk.constraint_name
      ++ "]\n        FOREIGN KEY ([" ++ fk.column
      ++ "])\n        REFERENCES [" ++ fk.ref_schema ++ "].[" ++ fk.ref_table
      ++ "]([" ++ fk.ref_col ++ "]);\n        ", ?_, ?_⟩
    · have e : ("\n        ALTER TABLE [" : String) = "\n        " ++ "ALTER TABLE [" := by decide
      rw [fkStmt, e]
      simp only [String.append_assoc]
    · intro hpre
      obtain ⟨t, ht⟩ := hpre
      have h0 : 'I' :: 'F' :: t = 'A' :: ("LTER TABLE [".data ++ _) := ht
      injection h0 with h1 _
      exact absurd h1 (by decide)

/-- Witness for C6 at concrete descriptors: a concrete table statement and
foreign-key statement, and a concrete index definition whose synthesis
succeeds, instantiate the three conjuncts. -/
theorem ddl_guard_asymmetry_witness :
    (∃ r, createTableStmt "public" "users" [] []
      = "\n        IF OBJECT_ID('"
        ++ ("public" ++ ("." ++ ("users" ++ ("', 'U') IS NULL\n        CREATE TABLE [" ++ r)))))
    ∧ (∃ s r, createIndexStmt "public" "users" "users_email_idx"
          "CREATE INDEX users_email_idx ON public.users USING btree (email)" = some s
        ∧ s = "\n            IF NOT EXISTS (\n                SELECT 1 FROM sys.indexes WHERE name='"
            ++ r)
    ∧ (∃ r, fkStmt "public" "orders" ⟨"orders_customer_id_fkey", "customer_id", "public",
          "customers", "id"⟩ = "\n        " ++ ("ALTER TABLE [" ++ r)
        ∧ ¬ ("IF".data <+: ("ALTER TABLE [" ++ r).data)) := by
  refine ⟨ddl_guard_asymmetry.1 "public" "users" [] [], ?_,
    ddl_guard_asymmetry.2.2 "public" "orders" _⟩
  have hs : ∃ s, createIndexStmt "public" "users" "users_email_idx"
      "CREATE INDEX users_email_idx ON public.users USING btree (email)" = some s := ⟨_, rfl⟩
  obtain ⟨s, hsome⟩ := hs
  obtain ⟨r, hr⟩ := ddl_guard_asymmetry.2.1 "public" "users" "users_email_idx"
    "CREATE INDEX users_email_idx ON public.users USING btree (email)" s hsome
  exact ⟨s, r, hsome, hr⟩

/-! ### C7: nullability markers in column definitions -/

/-- C7: a nullable, non-autoincrement column gets the explicit `NULL`
marker; an autoincrement column gets `NOT NULL` regardless of declared
nullability; a non-nullable column gets `NOT NULL`; and every synthesized
column definition ends with its marker. -/
theorem column_null_markers :
    (∀ c : Column, c.nullable = true → c.is_serial = false → nullMarker c = "NULL")
    ∧ (∀ c : Column, c.is_serial = true → nullMarker c = "NOT NULL")
    ∧ (∀ c : Column, c.nullable = false → nullMarker c = "NOT NULL")
    ∧ (∀ c : Column, colDef c
        = "[" ++ c.name ++ "] "
          ++ map_pg_type c.data_type c.length c.precision c.scale c.is_serial
          ++ " " ++ nullMarker c) := by
  refine ⟨fun c h1 h2 => ?_, fun c h => ?_, fun c h => ?_, fun c => rfl⟩
  · rw [nullMarker, h1, h2]
    rfl
  · rw [nullMarker, h]
    simp
  · rw [nullMarker, h]
    rfl

/-- Witness for C7 at concrete column descriptors: a nullable plain
column, a nullable autoincrement column, and a non-nullable column. -/
theorem column_null_markers_witness :
    nullMarker ⟨"created_at", "timestamp without time zone", true, none, none, none, false⟩
      = "NULL"
    ∧ nullMarker ⟨"id", "integer", true, none, none, none, true⟩ = "NOT NULL"
    ∧ nullMarker ⟨"email", "character varying", false, some 255, none, none, false⟩
      = "NOT NULL" :=
  ⟨column_null_markers.1 _ rfl rfl, column_null_markers.2.1 _ rfl,
   column_null_markers.2.2.1 _ rfl⟩

/-! ### C8: deterministic naming convention -/

/-- C8: the synthesized DDL names the primary-key constraint exactly
`PK_{schema}_{table}` (inside the table statement, which embeds
`pk_clause`), the index exactly `IX_{schema}_{table}_{indexname}` (used in
both the existence guard and the CREATE INDEX clause), and the foreign-key
constraint exactly `FK_{schema}_{table}_{constraintname}`. -/
theorem ddl_naming_convention :
    (∀ (schema table : String) (pk : List String), pk ≠ [] →
      ∃ r, pkClause schema table pk
        = ", CONSTRAINT [" ++ (("PK_" ++ schema ++ "_" ++ table) ++ ("] PRIMARY KEY (" ++ r)))
    ∧ (∀ (schema table : String) (columns : List Column) (pk : List String),
      ∃ r₁ r₂, createTableStmt schema table columns pk = r₁ ++ (pkClause schema table pk ++ r₂))
    ∧ (∀ schema table name : String,
      indexName schema table name = "IX_" ++ schema ++ "_" ++ table ++ "_" ++ name)
    ∧ (∀ schema table name idxdef s, createIndexStmt schema table name idxdef = some s →
      (∃ r₁ r₂, s = r₁ ++ ("name='" ++ (indexName schema table name ++ ("'" ++ r₂))))
      ∧ (∃ r₁ r₂, s = r₁ ++ ("INDEX [" ++ (indexName schema table name ++ ("]" ++ r₂)))))
    ∧ (∀ (schema table : String) (fk : FKey),
      ∃ r₁ r₂, fkStmt schema table fk
        = r₁ ++ ("ADD CONSTRAINT ["
          ++ (("FK_" ++ schema ++ "_" ++ table ++ "_" ++ fk.constraint_name) ++ ("]" ++ r₂)))) := by
  refine ⟨fun schema table pk hpk => ?_, fun schema table columns pk => ?_,
    fun schema table name => rfl, fun schema table name idxdef s hs => ?_,
    fun schema table fk => ?_⟩
  · refine ⟨joinSep ", " (pk.map (fun c => "[" ++ c ++ "]")) ++ ")", ?_⟩
    have e : (", CONSTRAINT [PK_" : String) = ", CONSTRAINT [" ++ "PK_" := by decide
    rw [pkClause, if_neg hpk, e]
    simp only [String.append_assoc]
  · refine ⟨"\n        IF OBJECT_ID('" ++ schema ++ "." ++ table
      ++ "', 'U') IS NULL\n        CREATE TABLE [" ++ schema ++ "].[" ++ table
      ++ "] (\n            " ++ joinSep ", " (columns.map colDef) ++ "\n            ",
      "\n        );\n    ", ?_⟩
    rw [createTableStmt]
    simp only [String.append_assoc]
  · rcases hc : indexCols idxdef with _ | cols
    · rw [createIndexStmt, hc] at hs
      exact absurd hs (by simp)
    · rw [createIndexStmt, hc, Option.some.injEq] at hs
      constructor
      · refine ⟨"\n            IF NOT EXISTS (\n                SELECT 1 FROM sys.indexes WHERE ",
          "\n            )\n            CREATE " ++ uniqueFlag idxdef ++ " INDEX ["
          ++ indexName schema table name ++ "]\n            ON [" ++ schema ++ "].[" ++ table
          ++ "] (" ++ colListOf cols ++ ");\n        ", ?_⟩
        have e1 : ("\n            IF NOT EXISTS (\n                SELECT 1 FROM sys.indexes WHERE name='" : String)
            = "\n            IF NOT EXISTS (\n                SELECT 1 FROM sys.indexes WHERE "
              ++ "name='" := by decide
        have e2 : ("'\n            )\n            CREATE " : String)
            = "'" ++ "\n            )\n            CREATE " := by decide
        rw [← hs, e1, e2]
        simp only [String.append_assoc]
      · refine ⟨"\n            IF NOT EXISTS (\n                SELECT 1 FROM sys.indexes WHERE name='"
          ++ indexName schema table name ++ "'\n            )\n            CREATE "
          ++ uniqueFlag idxdef ++ " ",
          "\n            ON [" ++ schema ++ "].[" ++ table ++ "] ("
          ++ colListOf cols ++ ");\n        ", ?_⟩
        have e1 : (" INDEX [" : String) = " " ++ "INDEX [" := by decide
        have e2 : ("]\n            ON [" : String) = "]" ++ "\n            ON [" := by decide
        rw [← hs, e1, e2]
        simp only [String.append_assoc]
  · refine ⟨"\n        ALTER TABLE [" ++ schema ++ "].[" ++ table ++ "]\n        ",
      "\n        FOREIGN KEY ([" ++ fk.column
      ++ "])\n        REFERENCES [" ++ fk.ref_schema ++ "].[" ++ fk.ref_table
      ++ "]([" ++ fk.ref_col ++ "]);\n        ", ?_⟩
    have e1 : ("]\n        ADD CONSTRAINT [FK_" : String)
        = "]\n        " ++ "ADD CONSTRAINT [" ++ "FK_" := by decide
    have e2 : ("]\n        FOREIGN KEY ([" : String) = "]" ++ "\n        FOREIGN KEY ([" := by decide
    rw [fkStmt, e1, e2]
    simp only [String.append_assoc]

/-- Witness for C8 at concrete names: the `PK_`, `IX_` and `FK_`
conventions at schema `public`, tables `users`/`orders`. -/
theorem ddl_naming_convention_witness :
    (∃ r, pkClause "public" "users" ["id"]
      = ", CONSTRAINT [" ++ (("PK_" ++ "public" ++ "_" ++ "users") ++ ("] PRIMARY KEY (" ++ r)))
    ∧ indexName "public" "users" "users_email_idx"
      = "IX_" ++ "public" ++ "_" ++ "users" ++ "_" ++ "users_email_idx"
    ∧ (∃ s r₁ r₂, createIndexStmt "public" "users" "users_email_idx"
          "CREATE INDEX users_email_idx ON public.users USING btree (email)" = some s
        ∧ s = r₁ ++ ("INDEX [" ++ (indexName "public" "users" "users_email_idx" ++ ("]" ++ r₂))))
    ∧ (∃ r₁ r₂, fkStmt "public" "orders"
          ⟨"orders_customer_id_fkey", "customer_id", "public", "customers", "id"⟩
        = r₁ ++ ("ADD CONSTRAINT ["
          ++ (("FK_" ++ "public" ++ "_" ++ "orders" ++ "_" ++ "orders_customer_id_fkey")
            ++ ("]" ++ r₂)))) := by
  refine ⟨ddl_naming_convention.1 "public" "users" ["id"] (by simp),
    ddl_naming_convention.2.2.1 "public" "users" "users_email_idx", ?_,
    ddl_naming_convention.2.2.2.2 "public" "orders" _⟩
  have hs : ∃ s, createIndexStmt "public" "users" "users_email_idx"
      "CREATE INDEX users_email_idx ON public.users USING btree (email)" = some s := ⟨_, rfl⟩
  obtain ⟨s, hsome⟩ := hs
  obtain ⟨r₁, r₂, hr⟩ := (ddl_naming_convention.2.2.2.1 "public" "users" "users_email_idx"
    "CREATE INDEX users_email_idx ON public.users USING btree (email)" s hsome).2
  exact ⟨s, r₁, r₂, hsome, hr⟩

/-! ### C9: implicit uniqueness detection (substring search) -/

lemma pre_cons_iff (a b : Char) (l₁ l₂ : List Char) :
    a :: l₁ <+: b :: l₂ ↔ a = b ∧ l₁ <+: l₂ := by
  constructor
  · rintro ⟨t, ht⟩
    rw [List.cons_append] at ht
    injection ht with h1 h2
    exact ⟨h1, t, h2⟩
  · rintro ⟨hab, t, ht⟩
    exact ⟨t, by rw [List.cons_append, hab, ht]⟩

lemma sub_cons_iff (pat : List Char) (b : Char) (l : List Char) :
    pat <:+: b :: l ↔ pat <+: b :: l ∨ pat <:+: l := by
  constructor
  · rintro ⟨s, t, h⟩
    cases s with
    | nil => exact Or.inl ⟨t, by simpa using h⟩
    | cons x xs =>
      rw [List.cons_append, List.cons_append] at h
      injection h with _ h2
      exact Or.inr ⟨xs, t, by simpa using h2⟩
  · rintro (⟨t, ht⟩ | ⟨s, t, ht⟩)
    · exact ⟨[], t, by simpa using ht⟩
    · exact ⟨b :: s, t, by simp [ht]⟩

lemma isPreB_iff (pat : List Char) : ∀ l : List Char, isPreB pat l = true ↔ pat <+: l := by
  induction pat with
  | nil =>
    intro l
    simp only [isPreB, true_iff]
    exact ⟨l, rfl⟩
  | cons a as ih =>
    intro l
    cases l with
    | nil =>
      simp only [isPreB, Bool.false_eq_true, false_iff]
      rintro ⟨t, ht⟩
      simp at ht
    | cons b bs =>
      rw [isPreB, Bool.and_eq_true, beq_iff_eq, ih, pre_cons_iff]

lemma isSubB_iff (pat : List Char) : ∀ l : List Char, isSubB pat l = true ↔ pat <:+: l := by
  intro l
  induction l with
  | nil =>
    cases pat with
    | nil =>
      simp only [isSubB, isPreB, true_iff]
      exact ⟨[], [], rfl⟩
    | cons a as =>
      simp only [isSubB, isPreB, Bool.false_eq_true, false_iff]
      rintro ⟨s, t, ht⟩
      simp at ht
  | cons b bs ih =>
    rw [isSubB, Bool.or_eq_true, isPreB_iff, ih, sub_cons_iff]

/-- C9: the emitted index statement carries the `UNIQUE` keyword exactly
when the case-insensitive substring `unique` occurs anywhere in the source
index-definition string — in particular an ordinary (non-unique) index
whose column name contains `unique_` is emitted as UNIQUE. -/
theorem unique_index_detection :
    (∀ idxdef : String,
      uniqueFlag idxdef = "UNIQUE" ↔ "unique".data <:+: (lowerStr idxdef).data)
    ∧ (∀ schema table name idxdef s, createIndexStmt schema table name idxdef = some s →
      ∃ r₁ r₂, s = r₁ ++ ("CREATE " ++ (uniqueFlag idxdef ++ (" INDEX [" ++ r₂))))
    ∧ uniqueFlag "CREATE INDEX idx_code ON public.t USING btree (unique_code)" = "UNIQUE"
    ∧ uniqueFlag "CREATE UNIQUE INDEX u_code ON public.t USING btree (code)" = "UNIQUE"
    ∧ uniqueFlag "CREATE INDEX idx_code ON public.t USING btree (code)" = "" := by
  refine ⟨fun idxdef => ?_, fun schema table name idxdef s hs => ?_, by decide, by decide,
    by decide⟩
  · by_cases h : isSubB "unique".data (lowerStr idxdef).data
    · rw [uniqueFlag, if_pos h]
      exact ⟨fun _ => (isSubB_iff _ _).mp h, fun _ => rfl⟩
    · rw [uniqueFlag, if_neg h]
      constructor
      · intro he
        exact absurd he (by decide)
      · intro hinf
        exact absurd ((isSubB_iff _ _).mpr hinf) h
  · rcases hc : indexCols idxdef with _ | cols
    · rw [createIndexStmt, hc] at hs
      exact absurd hs (by simp)
    · rw [createIndexStmt, hc, Option.some.injEq] at hs
      refine ⟨"\n            IF NOT EXISTS (\n                SELECT 1 FROM sys.indexes WHERE name='"
        ++ indexName schema table name ++ "'\n            )\n            ",
        indexName schema table name ++ "]\n            ON [" ++ schema ++ "].[" ++ table
        ++ "] (" ++ colListOf cols ++ ");\n        ", ?_⟩
      have e1 : ("'\n            )\n            CREATE " : String)
          = "'\n            )\n            " ++ "CREATE " := by decide
      have e2 : (" INDEX [" : String) = " " ++ "INDEX [" := by decide
      rw [← hs, e1]
      rw [e2]
      simp only [String.append_assoc]

/-- Witness for C9: a concrete non-unique index definition whose column is
named `unique_code` is synthesized with the `UNIQUE` keyword in its
CREATE clause. -/
theorem unique_index_detection_witness :
    (∃ s r₁ r₂, createIndexStmt "public" "t" "idx_code"
        "CREATE INDEX idx_code ON public.t USING btree (unique_code)" = some s
      ∧ s = r₁ ++ ("CREATE "
          ++ (uniqueFlag "CREATE INDEX idx_code ON public.t USING btree (unique_code)"
            ++ (" INDEX [" ++ r₂))))
    ∧ "unique".data <:+:
        (lowerStr "CREATE INDEX idx_code ON public.t USING btree (unique_code)").data := by
  constructor
  · have hs : ∃ s, createIndexStmt "public" "t" "idx_code"
        "CREATE INDEX idx_code ON public.t USING btree (unique_code)" = some s := ⟨_, rfl⟩
    obtain ⟨s, hsome⟩ := hs
    obtain ⟨r₁, r₂, hr⟩ := unique_index_detection.2.1 "public" "t" "idx_code"
      "CREATE INDEX idx_code ON public.t USING btree (unique_code)" s hsome
    exact ⟨s, r₁, r₂, hsome, hr⟩
  · exact (unique_index_detection.1 _).mp (by decide)


/-! ### C10: the index-definition parse and its precondition -/

lemma firstIdx_here (ch : Char) (l₁ l₂ : List Char) (h : ch ∉ l₁) :
    firstIdx (fun c => c == ch) (l₁ ++ ch :: l₂) = some l₁.length := by
  induction l₁ with
  | nil => simp [firstIdx]
  | cons c cs ih =>
    have hc : (c == ch) = false := by
      refine beq_eq_false_iff_ne.mpr fun he => h ?_
      rw [he]
      exact List.mem_cons_self ch cs
    have hcs : ch ∉ cs := fun hm => h (List.mem_cons_of_mem c hm)
    rw [List.cons_append, firstIdx, hc]
    simp only [Bool.false_eq_true, if_false, ih hcs, List.length_cons]
    rfl

lemma firstIdx_none (ch : Char) (l : List Char) (hl : ch ∉ l) :
    firstIdx (fun c => c == ch) l = none := by
  induction l with
  | nil => rfl
  | cons c cs ih =>
    have hc : (c == ch) = false := by
      refine beq_eq_false_iff_ne.mpr fun he => hl ?_
      rw [he]
      exact List.mem_cons_self ch cs
    have hcs : ch ∉ cs := fun hm => hl (List.mem_cons_of_mem c hm)
    rw [firstIdx, hc]
    simp only [Bool.false_eq_true, if_false, ih hcs]
    rfl

/-- C10: the column-list parse extracts the comma-split of the substring
strictly between the first `(` and the first `)` (double quotes removed;
the synthesized statement then brackets the trimmed entries via
`colListOf`), and a definition string lacking `(` or lacking `)` makes the
parse — and with it the statement synthesis — fail with `none` (the
Python `str.index` call raises `ValueError`). -/
theorem index_parse_extraction :
    (∀ a b c : String, '(' ∉ a.data → ')' ∉ a.data → ')' ∉ b.data →
      indexCols (a ++ "(" ++ b ++ ")" ++ c) = some (splitCommaStr (removeQuotes b)))
    ∧ (∀ s : String, '(' ∉ s.data ∨ ')' ∉ s.data → indexCols s = none)
    ∧ (∀ schema table name idxdef, indexCols idxdef = none →
      createIndexStmt schema table name idxdef = none)
    ∧ (∀ schema table name idxdef cols, indexCols idxdef = some cols →
      createIndexStmt schema table name idxdef
        = some ("\n            IF NOT EXISTS (\n                SELECT 1 FROM sys.indexes WHERE name='"
          ++ indexName schema table name ++ "'\n            )\n            CREATE "
          ++ uniqueFlag idxdef ++ " INDEX [" ++ indexName schema table name
          ++ "]\n            ON [" ++ schema ++ "].[" ++ table ++ "] ("
          ++ colListOf cols ++ ");\n        ")) := by
  refine ⟨fun a b c h1 h2 h3 => ?_, fun s h => ?_,
    fun schema table name idxdef h => by rw [createIndexStmt, h],
    fun schema table name idxdef cols h => by rw [createIndexStmt, h]⟩
  · have hS : (a ++ "(" ++ b ++ ")" ++ c).data
        = a.data ++ '(' :: (b.data ++ ')' :: c.data) := by
      simp [String.data_append]
    have hsplit : a.data ++ '(' :: (b.data ++ ')' :: c.data)
        = (a.data ++ '(' :: b.data) ++ ')' :: c.data := by
      simp
    have hopen : firstIdx (fun ch => ch == '(') ((a ++ "(" ++ b ++ ")" ++ c).data)
        = some a.data.length := by
      rw [hS]
      exact firstIdx_here '(' a.data _ h1
    have hnotin : ')' ∉ a.data ++ '(' :: b.data := by
      intro hmem
      rcases List.mem_append.mp hmem with hx | hx
      · exact h2 hx
      · rcases List.mem_cons.mp hx with hx | hx
        · exact absurd hx (by decide)
        · exact h3 hx
    have hclose : firstIdx (fun ch => ch == ')') ((a ++ "(" ++ b ++ ")" ++ c).data)
        = some (a.data.length + (b.data.length + 1)) := by
      rw [hS, hsplit]
      have := firstIdx_here ')' (a.data ++ '(' :: b.data) c.data hnotin
      simpa using this
    have hslice : pySlice (a ++ "(" ++ b ++ ")" ++ c) (a.data.length + 1)
        (a.data.length + (b.data.length + 1)) = b := by
      rw [pySlice, hS]
      have hform : a.data ++ '(' :: (b.data ++ ')' :: c.data)
          = (a.data ++ ['(']) ++ (b.data ++ ')' :: c.data) := by
        simp
      have harith : a.data.length + (b.data.length + 1) - (a.data.length + 1)
          = b.data.length := by
        omega
      have hlen : a.data.length + 1 = (a.data ++ ['(']).length := by
        simp
      rw [hform, harith, hlen, List.drop_left, List.take_left]
    rw [indexCols, hopen, hclose]
    dsimp only
    rw [hslice]
  · rcases h with h | h
    · rcases he : firstIdx (fun c => c == ')') s.data with _ | e <;>
        rw [indexCols, firstIdx_none '(' s.data h, he]
    · rcases ho : firstIdx (fun c => c == '(') s.data with _ | i <;>
        rw [indexCols, ho, firstIdx_none ')' s.data h]

/-- Witness for C10: a concrete two-column index definition parses to its
comma-split raw fields, a parenthesis-free string fails to parse, and the
failure propagates to the statement synthesis. -/
theorem index_parse_extraction_witness :
    indexCols "CREATE INDEX i ON t USING btree (email, created_at)"
      = some ["email", " created_at"]
    ∧ indexCols "no parens here" = none
    ∧ createIndexStmt "public" "t" "i" "no parens here" = none := by
  refine ⟨?_, ?_, ?_⟩
  · exact index_parse_extraction.1 "CREATE INDEX i ON t USING btree " "email, created_at" ""
      (by decide) (by decide) (by decide)
  · exact index_parse_extraction.2.1 "no parens here" (Or.inl (by decide))
  · exact index_parse_extraction.2.2.1 "public" "t" "i" "no parens here" (by decide)
